import Mathlib

set_option autoImplicit false

/-!
# Verification of the Pre3d software 3d renderer

A shallow embedding of the Pre3d JavaScript library (`index.js`,
`pre3d_path_utils.js`) in Lean 4, together with theorems settling the
frozen claims about its specification.

Modelling conventions:
* JavaScript double-precision arithmetic is modelled by exact rationals
  (`ℚ`).  The transcendental primitives `Math.sin`, `Math.cos` and
  `Math.sqrt` have no exact rational counterpart; functions that call
  them take the corresponding function (or its value at the call site)
  as an explicit parameter, exactly as the JS engine receives an opaque
  `Math.sin` from its host.
* Objects mutated in place in JS are threaded functionally; arrays are
  Lean `List`s, `push` is append, element writes are `List.set`.
* JS `null` slots (`QuadFace.i3`, cached metadata, nullable colours)
  are `Option`s.
-/

namespace Pre3d

/-- A 3d point / vector, JS object literal `{x:,y:,z:}` (index.js). -/
structure Point3 where
  x : ℚ
  y : ℚ
  z : ℚ
deriving DecidableEq, Repr

/-- The zero point, used as explicit default for out-of-range list reads. -/
def pzero : Point3 := ⟨0, 0, 0⟩

/-- `crossProduct` from index.js. -/
def crossProduct (a b : Point3) : Point3 :=
  { x := a.y * b.z - a.z * b.y
    y := a.z * b.x - a.x * b.z
    z := a.x * b.y - a.y * b.x }

/-- `dotProduct3d` from index.js. -/
def dotProduct3d (a b : Point3) : ℚ :=
  a.x * b.x + a.y * b.y + a.z * b.z

/-- `subPoints3d` from index.js (`a - b`). -/
def subPoints3d (a b : Point3) : Point3 :=
  ⟨a.x - b.x, a.y - b.y, a.z - b.z⟩

/-- `addPoints3d` from index.js (`a + b`). -/
def addPoints3d (a b : Point3) : Point3 :=
  ⟨a.x + b.x, a.y + b.y, a.z + b.z⟩

/-- `mulPoint3d` from index.js (`a * s`). -/
def mulPoint3d (a : Point3) (s : ℚ) : Point3 :=
  ⟨a.x * s, a.y * s, a.z * s⟩

/-- `vecMag3d` from index.js: `Math.sqrt(ax*ax + ay*ay + az*az)`.
`Math.sqrt` is the explicit parameter `sqrtf`. -/
def vecMag3d (sqrtf : ℚ → ℚ) (a : Point3) : ℚ :=
  sqrtf (a.x * a.x + a.y * a.y + a.z * a.z)

/-- `unitVector3d` from index.js: `mulPoint3d(a, 1 / vecMag3d(a))`. -/
def unitVector3d (sqrtf : ℚ → ℚ) (a : Point3) : Point3 :=
  mulPoint3d a (1 / vecMag3d sqrtf a)

/-- `linearInterpolate` from index.js: `(b-a)*d + a`. -/
def linearInterpolate (a b d : ℚ) : ℚ :=
  (b - a) * d + a

/-- `linearInterpolatePoints3d` from index.js. -/
def linearInterpolatePoints3d (a b : Point3) (d : ℚ) : Point3 :=
  { x := (b.x - a.x) * d + a.x
    y := (b.y - a.y) * d + a.y
    z := (b.z - a.z) * d + a.z }

/-- `averagePoints` from index.js: sum the points, then scale by
`1 / ps.length` (for the empty list JS produces `NaN`; here `1/0 = 0`,
a case no claim exercises). -/
def averagePoints (ps : List Point3) : Point3 :=
  mulPoint3d (ps.foldl addPoints3d pzero) (1 / (ps.length : ℚ))

/-- `AffineMatrix` from index.js: a 3x4 affine matrix, rows laid out as
`e0..e3 / e4..e7 / e8..e11`, implicit last row `[0,0,0,1]`. -/
structure AffineMatrix where
  e0 : ℚ
  e1 : ℚ
  e2 : ℚ
  e3 : ℚ
  e4 : ℚ
  e5 : ℚ
  e6 : ℚ
  e7 : ℚ
  e8 : ℚ
  e9 : ℚ
  e10 : ℚ
  e11 : ℚ
deriving DecidableEq, Repr

/-- `multiplyAffine` from index.js: the matrix product `a * b`,
unrolled, including the contribution of the implicit last row. -/
def multiplyAffine (a b : AffineMatrix) : AffineMatrix :=
  { e0 := a.e0 * b.e0 + a.e1 * b.e4 + a.e2 * b.e8
    e1 := a.e0 * b.e1 + a.e1 * b.e5 + a.e2 * b.e9
    e2 := a.e0 * b.e2 + a.e1 * b.e6 + a.e2 * b.e10
    e3 := a.e0 * b.e3 + a.e1 * b.e7 + a.e2 * b.e11 + a.e3
    e4 := a.e4 * b.e0 + a.e5 * b.e4 + a.e6 * b.e8
    e5 := a.e4 * b.e1 + a.e5 * b.e5 + a.e6 * b.e9
    e6 := a.e4 * b.e2 + a.e5 * b.e6 + a.e6 * b.e10
    e7 := a.e4 * b.e3 + a.e5 * b.e7 + a.e6 * b.e11 + a.e7
    e8 := a.e8 * b.e0 + a.e9 * b.e4 + a.e10 * b.e8
    e9 := a.e8 * b.e1 + a.e9 * b.e5 + a.e10 * b.e9
    e10 := a.e8 * b.e2 + a.e9 * b.e6 + a.e10 * b.e10
    e11 := a.e8 * b.e3 + a.e9 * b.e7 + a.e10 * b.e11 + a.e11 }

/-- `makeIdentityAffine` from index.js. -/
def makeIdentityAffine : AffineMatrix :=
  ⟨1, 0, 0, 0,
   0, 1, 0, 0,
   0, 0, 1, 0⟩

/-- `makeRotateAffineX` from index.js.  The JS computes
`s = Math.sin(theta)` and `c = Math.cos(theta)`; the sine and cosine
values are taken here as the explicit parameters `s` and `c`. -/
def makeRotateAffineX (s c : ℚ) : AffineMatrix :=
  ⟨1, 0, 0, 0,
   0, c, -s, 0,
   0, s, c, 0⟩

/-- `makeRotateAffineY` from index.js (`s`, `c` as in
`makeRotateAffineX`). -/
def makeRotateAffineY (s c : ℚ) : AffineMatrix :=
  ⟨c, 0, s, 0,
   0, 1, 0, 0,
   -s, 0, c, 0⟩

/-- `makeRotateAffineZ` from index.js (`s`, `c` as in
`makeRotateAffineX`). -/
def makeRotateAffineZ (s c : ℚ) : AffineMatrix :=
  ⟨c, -s, 0, 0,
   s, c, 0, 0,
   0, 0, 1, 0⟩

/-- `makeTranslateAffine` from index.js. -/
def makeTranslateAffine (dx dy dz : ℚ) : AffineMatrix :=
  ⟨1, 0, 0, dx,
   0, 1, 0, dy,
   0, 0, 1, dz⟩

/-- `makeScaleAffine` from index.js. -/
def makeScaleAffine (sx sy sz : ℚ) : AffineMatrix :=
  ⟨sx, 0, 0, 0,
   0, sy, 0, 0,
   0, 0, sz, 0⟩

/-- `dupAffine` from index.js: a fresh copy of the 12 coefficients. -/
def dupAffine (m : AffineMatrix) : AffineMatrix :=
  ⟨m.e0, m.e1, m.e2, m.e3,
   m.e4, m.e5, m.e6, m.e7,
   m.e8, m.e9, m.e10, m.e11⟩

/-- `transAdjoint` from index.js: transpose of the classical adjoint of
the 3x3 linear block (no division by the determinant). -/
def transAdjoint (a : AffineMatrix) : AffineMatrix :=
  ⟨a.e10 * a.e5 - a.e6 * a.e9,
   a.e6 * a.e8 - a.e4 * a.e10,
   a.e4 * a.e9 - a.e8 * a.e5,
   0,
   a.e2 * a.e9 - a.e10 * a.e1,
   a.e10 * a.e0 - a.e2 * a.e8,
   a.e8 * a.e1 - a.e0 * a.e9,
   0,
   a.e6 * a.e1 - a.e2 * a.e5,
   a.e4 * a.e2 - a.e6 * a.e0,
   a.e0 * a.e5 - a.e4 * a.e1,
   0⟩

/-- `transformPoint` from index.js: apply the affine matrix `t` to the
point `p`. -/
def transformPoint (t : AffineMatrix) (p : Point3) : Point3 :=
  { x := t.e0 * p.x + t.e1 * p.y + t.e2 * p.z + t.e3
    y := t.e4 * p.x + t.e5 * p.y + t.e6 * p.z + t.e7
    z := t.e8 * p.x + t.e9 * p.y + t.e10 * p.z + t.e11 }

/-- `transformPoints` from index.js. -/
def transformPoints (t : AffineMatrix) (ps : List Point3) : List Point3 :=
  ps.map (transformPoint t)

/-- `Transform` from index.js: a wrapper holding one affine matrix,
initialised to the identity by `reset()`. -/
structure Transform where
  m : AffineMatrix
deriving DecidableEq, Repr

namespace Transform

/-- `Transform.prototype.reset` / the `Transform` constructor. -/
def reset (_t : Transform) : Transform :=
  ⟨makeIdentityAffine⟩

/-- A fresh `new Transform()`. -/
def make : Transform := ⟨makeIdentityAffine⟩

/-- `Transform.prototype.rotateX`:
`this.m = multiplyAffine(makeRotateAffineX(theta), this.m)`. -/
def rotateX (t : Transform) (s c : ℚ) : Transform :=
  ⟨multiplyAffine (makeRotateAffineX s c) t.m⟩

/-- `Transform.prototype.rotateXPre`:
`this.m = multiplyAffine(this.m, makeRotateAffineX(theta))`. -/
def rotateXPre (t : Transform) (s c : ℚ) : Transform :=
  ⟨multiplyAffine t.m (makeRotateAffineX s c)⟩

/-- `Transform.prototype.rotateY`. -/
def rotateY (t : Transform) (s c : ℚ) : Transform :=
  ⟨multiplyAffine (makeRotateAffineY s c) t.m⟩

/-- `Transform.prototype.rotateYPre`. -/
def rotateYPre (t : Transform) (s c : ℚ) : Transform :=
  ⟨multiplyAffine t.m (makeRotateAffineY s c)⟩

/-- `Transform.prototype.rotateZ`. -/
def rotateZ (t : Transform) (s c : ℚ) : Transform :=
  ⟨multiplyAffine (makeRotateAffineZ s c) t.m⟩

/-- `Transform.prototype.rotateZPre`. -/
def rotateZPre (t : Transform) (s c : ℚ) : Transform :=
  ⟨multiplyAffine t.m (makeRotateAffineZ s c)⟩

/-- `Transform.prototype.translate`:
`this.m = multiplyAffine(makeTranslateAffine(dx,dy,dz), this.m)`. -/
def translate (t : Transform) (dx dy dz : ℚ) : Transform :=
  ⟨multiplyAffine (makeTranslateAffine dx dy dz) t.m⟩

/-- `Transform.prototype.translatePre`. -/
def translatePre (t : Transform) (dx dy dz : ℚ) : Transform :=
  ⟨multiplyAffine t.m (makeTranslateAffine dx dy dz)⟩

/-- `Transform.prototype.scale`:
`this.m = multiplyAffine(makeScaleAffine(sx,sy,sz), this.m)`. -/
def scale (t : Transform) (sx sy sz : ℚ) : Transform :=
  ⟨multiplyAffine (makeScaleAffine sx sy sz) t.m⟩

/-- `Transform.prototype.scalePre`. -/
def scalePre (t : Transform) (sx sy sz : ℚ) : Transform :=
  ⟨multiplyAffine t.m (makeScaleAffine sx sy sz)⟩

/-- `Transform.prototype.transformPoint`. -/
def transformPoint (t : Transform) (p : Point3) : Point3 :=
  Pre3d.transformPoint t.m p

/-- `Transform.prototype.multTransform`:
`this.m = multiplyAffine(this.m, t.m)`. -/
def multTransform (t other : Transform) : Transform :=
  ⟨multiplyAffine t.m other.m⟩

/-- `Transform.prototype.dup`. -/
def dup (t : Transform) : Transform :=
  ⟨dupAffine t.m⟩

end Transform

/-- `QuadFace` from index.js: four vertex indices (`i3 = null` marks a
triangle) plus the cached metadata slots, which the constructor
initialises to `null`. -/
structure QuadFace where
  i0 : Nat
  i1 : Nat
  i2 : Nat
  i3 : Option Nat
  centroid : Option Point3
  normal1 : Option Point3
  normal2 : Option Point3
deriving DecidableEq, Repr

/-- `new Pre3d.QuadFace(i0, i1, i2, i3)`: metadata slots start `null`. -/
def newQuadFace (i0 i1 i2 : Nat) (i3 : Option Nat) : QuadFace :=
  ⟨i0, i1, i2, i3, none, none, none⟩

/-- `QuadFace.prototype.isTriangle`: `this.i3 === null`. -/
def QuadFace.isTriangle (qf : QuadFace) : Bool :=
  qf.i3.isNone

/-- Default face used for out-of-range `List.getD` reads of face lists
(JS would yield `undefined`; no claim exercises such a read). -/
def qfzero : QuadFace := newQuadFace 0 0 0 none

/-- `Shape` from index.js: a vertex list and a list of `QuadFace`s whose
indices point into it. -/
structure Shape where
  vertices : List Point3
  quads : List QuadFace
deriving DecidableEq, Repr

/-- `Curve` from index.js: end-point index `ep`, control-point indices
`c0` and `c1` (`c1 = null` marks a quadratic curve). -/
structure Curve where
  ep : Nat
  c0 : Nat
  c1 : Option Nat
deriving DecidableEq, Repr

/-- `Path` from index.js: points, curves indexing into them, and an
optional starting point (`null` = start at the origin). -/
structure Path where
  points : List Point3
  curves : List Curve
  starting_point : Option Nat
deriving DecidableEq, Repr

namespace ShapeUtils

/-- The body of the `rebuildMeta` loop (pre3d_path_utils.js,
`Pre3d.ShapeUtils.rebuildMeta`): recompute one face's centroid and two
normals from the current vertex positions. -/
def rebuildMetaFace (vertices : List Point3) (qf : QuadFace) : QuadFace :=
  let vert0 := vertices.getD qf.i0 pzero
  let vert1 := vertices.getD qf.i1 pzero
  let vert2 := vertices.getD qf.i2 pzero
  let vec01 := subPoints3d vert1 vert0
  let vec02 := subPoints3d vert2 vert0
  let n1 := crossProduct vec01 vec02
  match qf.i3 with
  | none =>
      { qf with
        centroid := some (averagePoints [vert0, vert1, vert2])
        normal1 := some n1
        normal2 := some n1 }
  | some k3 =>
      let vert3 := vertices.getD k3 pzero
      let vec03 := subPoints3d vert3 vert0
      let n2 := crossProduct vec02 vec03
      { qf with
        centroid := some (averagePoints [vert0, vert1, vert2, vert3])
        normal1 := some n1
        normal2 := some n2 }

/-- `rebuildMeta` from pre3d_path_utils.js: recompute the cached
centroid and normals of every face. -/
def rebuildMeta (shape : Shape) : Shape :=
  { shape with quads := shape.quads.map (rebuildMetaFace shape.vertices) }

/-- The per-face step of `triangulate`: a quad is truncated in place to
the triangle `(i0, i1, i2)` (`qf.i3 = null`); triangles are skipped. -/
def triangulateFace (qf : QuadFace) : QuadFace :=
  if qf.isTriangle then qf else { qf with i3 := none }

/-- The triangle `triangulate` pushes for a quad face:
`new Pre3d.QuadFace(qf.i0, qf.i2, qf.i3, null)`. -/
def triangulateExtra (qf : QuadFace) : Option QuadFace :=
  match qf.i3 with
  | none => none
  | some k3 => some (newQuadFace qf.i0 qf.i2 k3 none)

/-- `triangulate` from pre3d_path_utils.js: the loop runs over the
original faces, truncating each quad in place and pushing its second
half as a new triangle; then the metadata is rebuilt. -/
def triangulate (shape : Shape) : Shape :=
  rebuildMeta
    { shape with
      quads := shape.quads.map triangulateFace
                ++ shape.quads.filterMap triangulateExtra }

/-- `makePlane` from pre3d_path_utils.js. -/
def makePlane (p1 p2 p3 p4 : Point3) : Shape :=
  rebuildMeta { vertices := [p1, p2, p3, p4]
                quads := [newQuadFace 0 1 2 (some 3)] }

/-- `makeBox` from pre3d_path_utils.js. -/
def makeBox (w h d : ℚ) : Shape :=
  rebuildMeta
    { vertices :=
        [⟨w, h, -d⟩, ⟨w, h, d⟩, ⟨w, -h, d⟩, ⟨w, -h, -d⟩,
         ⟨-w, h, -d⟩, ⟨-w, h, d⟩, ⟨-w, -h, d⟩, ⟨-w, -h, -d⟩]
      quads :=
        [newQuadFace 0 1 2 (some 3),
         newQuadFace 1 5 6 (some 2),
         newQuadFace 5 4 7 (some 6),
         newQuadFace 4 0 3 (some 7),
         newQuadFace 0 4 5 (some 1),
         newQuadFace 2 6 7 (some 3)] }

/-- `makeCube` from pre3d_path_utils.js: `makeBox(whd, whd, whd)`. -/
def makeCube (whd : ℚ) : Shape :=
  makeBox whd whd whd

/-- The vertex-index slots a face pushes into the connection map of
`averageSmooth`: `i0, i1, i2`, and `i3` when the face is a quad. -/
def faceSlots (qf : QuadFace) : List Nat :=
  [qf.i0, qf.i1, qf.i2] ++ (match qf.i3 with | some k => [k] | none => [])

/-- The entries pushed into `connections[i]` by `averageSmooth` while
scanning faces `j, j+1, ...`: one copy of the face index per slot of
the face that equals `i`, in scan order (exactly the `push` calls of
the source's connection-building loop). -/
def connectionsAux (quads : List QuadFace) (i j : Nat) : List Nat :=
  match quads with
  | [] => []
  | qf :: rest =>
      ((faceSlots qf).filter (fun k => k == i)).map (fun _ => j)
        ++ connectionsAux rest i (j + 1)

/-- `connections[i]` of `averageSmooth`: the face indices referencing
vertex `i`, with multiplicity, built per call. -/
def connectionsFor (quads : List QuadFace) (i : Nat) : List Nat :=
  connectionsAux quads i 0

/-- One face's contribution to the centroid sum of `averageSmooth`:
`(p1 + p2 + p3 + p4) / 4` componentwise, where `p4` is read from
`vertices[quad.i3]`.  For a triangle `quad.i3` is `null` and that read
throws a TypeError in JS; `smoothedVertex` returns `none` in that case,
so this total helper (which defaults `i3` to `0`) is only consulted for
quad faces. -/
def quarterPoint (vertices : List Point3) (qf : QuadFace) : Point3 :=
  let p1 := vertices.getD qf.i0 pzero
  let p2 := vertices.getD qf.i1 pzero
  let p3 := vertices.getD qf.i2 pzero
  let p4 := vertices.getD (qf.i3.getD 0) pzero
  { x := (p1.x + p2.x + p3.x + p4.x) / 4
    y := (p1.y + p2.y + p3.y + p4.y) / 4
    z := (p1.z + p2.z + p3.z + p4.z) / 4 }

/-- The body of the per-vertex loop of `averageSmooth`: sum the
quad-centroid contributions of the faces connected to vertex `i`,
scale by `1 / connections.length` (`1/0 = 0` here where JS produces
`Infinity`; the claims only cover vertices referenced by at least one
face), and interpolate from the original position by `m`.  `none`
models the JS TypeError raised when a connected face is a triangle. -/
def smoothedVertex (shape : Shape) (m : ℚ) (i : Nat) : Option Point3 :=
  let cs := connectionsFor shape.quads i
  if cs.all (fun j => !(shape.quads.getD j qfzero).isTriangle) then
    let sum := cs.foldl
      (fun acc j => addPoints3d acc (quarterPoint shape.vertices (shape.quads.getD j qfzero)))
      pzero
    let f := 1 / (cs.length : ℚ)
    some (linearInterpolatePoints3d (shape.vertices.getD i pzero) (mulPoint3d sum f) m)
  else
    none

/-- Collect the results of `f` over a list, propagating failure
(the functional rendering of a loop that can throw). -/
def collectSome {α β : Type} (f : α → Option β) : List α → Option (List β)
  | [] => some []
  | a :: as =>
      match f a, collectSome f as with
      | some b, some bs => some (b :: bs)
      | _, _ => none

/-- `averageSmooth` from pre3d_path_utils.js: every vertex is replaced
by the interpolation between its old position and the average of the
(quad) centroids of the faces it belongs to; all reads are from the
pre-smoothing vertex list and the new list is installed at the end,
followed by `rebuildMeta`.  `none` models the TypeError the source
raises on shapes with triangle faces. -/
def averageSmooth (shape : Shape) (m : ℚ) : Option Shape :=
  (collectSome (smoothedVertex shape m) (List.range shape.vertices.length)).map
    (fun new_ps => rebuildMeta { shape with vertices := new_ps })

/-- The claim's reading of "the faces referencing vertex `i`", scanning
faces `j, j+1, ...`: each face index at most once, in scan order. -/
def facesReferencingAux (quads : List QuadFace) (i j : Nat) : List Nat :=
  match quads with
  | [] => []
  | qf :: rest =>
      (if i ∈ faceSlots qf then [j] else [])
        ++ facesReferencingAux rest i (j + 1)

/-- The indices of the faces referencing vertex `i` (each at most once,
ascending).  For faces whose slots are pairwise distinct this coincides
with the connection lists `averageSmooth` builds. -/
def facesReferencing (quads : List QuadFace) (i : Nat) : List Nat :=
  facesReferencingAux quads i 0

/-- The 4-point centroid of a quad face (`p4` read through
`i3.getD 0`, as in `quarterPoint`): what `averageSmooth` contributes
per connected face, and what `rebuildMeta` caches for a quad. -/
def quadCentroid (vertices : List Point3) (qf : QuadFace) : Point3 :=
  averagePoints
    [vertices.getD qf.i0 pzero, vertices.getD qf.i1 pzero,
     vertices.getD qf.i2 pzero, vertices.getD (qf.i3.getD 0) pzero]

/-- The claim's target point for vertex `i` of `averageSmooth`: the
average of the centroids of all faces referencing `i`. -/
def centroidAverage (shape : Shape) (i : Nat) : Point3 :=
  averagePoints
    ((facesReferencing shape.quads i).map
      (fun j => quadCentroid shape.vertices (shape.quads.getD j qfzero)))

/-- Insertion of a value into a numerically sorted list. -/
def insertNat (a : Nat) : List Nat → List Nat
  | [] => [a]
  | b :: bs => if a ≤ b then a :: b :: bs else b :: insertNat a bs

/-- Numeric insertion sort.  The source calls `Array.prototype.sort`,
which orders the indices by their decimal strings; either ordering is a
canonical reordering of the same index multiset, so the sharing keys it
produces (and the averaged points, which are order-independent) are
identical. -/
def sortNats : List Nat → List Nat
  | [] => []
  | a :: as => insertNat a (sortNats as)

/-- Lookup in the `share_points` cache of `linearSubdivide`.  The
source keys a JS object by `indices.join('-')`; dash-joined decimal
strings are in bijection with the index lists themselves, so the cache
is modelled as an association list keyed by the sorted index list. -/
def lookupShare (share : List (List Nat × Nat)) (key : List Nat) : Option Nat :=
  match share with
  | [] => none
  | (k, v) :: rest => if k = key then some v else lookupShare rest key

/-- The inner loop body of `linearSubdivide`: for one sorted key list
`ps`, reuse the cached vertex for that key, or push the average of the
vertices it names and cache the new index. -/
def subdivideKey (verts : List Point3) (share : List (List Nat × Nat))
    (ps : List Nat) : List Point3 × List (List Nat × Nat) × Nat :=
  match lookupShare share ps with
  | some centroid_index => (verts, share, centroid_index)
  | none =>
      let centroid_index := verts.length
      (verts ++ [averagePoints (ps.map (fun x => verts.getD x pzero))],
       (ps, centroid_index) :: share,
       centroid_index)

/-- The per-face body of `linearSubdivide`: compute the five shared
centroid indices (four edges and the middle), replace face `i` by the
first sub-quad and push the other three.  The source reads
`shape.vertices[i3]` through `quad.i3`, which is `null` for a triangle
(the operation, per its own comment, "doesn't support triangles"); the
claims only apply it to all-quad shapes, where `getD`'s default is
never consulted. -/
def subdivideStep (st : Shape × List (List Nat × Nat)) (i : Nat) :
    Shape × List (List Nat × Nat) :=
  let shape := st.1
  let share := st.2
  let quad := shape.quads.getD i qfzero
  let i0 := quad.i0
  let i1 := quad.i1
  let i2 := quad.i2
  let i3 := quad.i3.getD 0
  let r0 := subdivideKey shape.vertices share (sortNats [i0, i1])
  let r1 := subdivideKey r0.1 r0.2.1 (sortNats [i1, i2])
  let r2 := subdivideKey r1.1 r1.2.1 (sortNats [i2, i3])
  let r3 := subdivideKey r2.1 r2.2.1 (sortNats [i3, i0])
  let r4 := subdivideKey r3.1 r3.2.1 (sortNats [i0, i1, i2, i3])
  let n0 := r0.2.2
  let n1 := r1.2.2
  let n2 := r2.2.2
  let n3 := r3.2.2
  let n4 := r4.2.2
  let q0 := newQuadFace i0 n0 n4 (some n3)
  let q1 := newQuadFace n0 i1 n1 (some n4)
  let q2 := newQuadFace n4 n1 i2 (some n2)
  let q3 := newQuadFace n3 n4 n2 (some i3)
  ({ vertices := r4.1
     quads := (shape.quads.set i q0) ++ [q1, q2, q3] }, r4.2.1)

/-- `linearSubdivide` from pre3d_path_utils.js: divide each of the
original faces into four, sharing the edge-midpoint vertices through
the `share_points` cache, then rebuild the metadata. -/
def linearSubdivide (shape : Shape) : Shape :=
  rebuildMeta ((List.range shape.quads.length).foldl subdivideStep (shape, [])).1

/-- The `Extruder` from pre3d_path_utils.js: extrusion parameters.  The
constructor sets `distance_ = 1`, `count_ = 1`, `selectAll()` (a
selector answering `true` for every face), unit scale and zero
rotation. -/
structure Extruder where
  distance_ : ℚ
  count_ : Nat
  selector_ : Shape → Nat → Bool
  scale : Point3
  rotate : Point3

/-- `new Pre3d.ShapeUtils.Extruder()`. -/
def newExtruder : Extruder :=
  { distance_ := 1
    count_ := 1
    selector_ := fun _ _ => true
    scale := ⟨1, 1, 1⟩
    rotate := ⟨0, 0, 0⟩ }

/-- The face-selection loop at the top of `Extruder.prototype.extrude`:
the indices `i` with `selector_(shape, i)` true, in order. -/
def selectedFaces (ex : Extruder) (shape : Shape) : List Nat :=
  (List.range shape.quads.length).filter (fun i => ex.selector_ shape i)

/-- One `z`-iteration of the inner loop of `extrude`: build the
incremental rotation (sines and cosines supplied by `sinf`/`cosf`, as
JS gets them from `Math.sin`/`Math.cos`), displace the centroid along
the rotated surface normal, scale the inner normals, push the new
corner vertices and the side faces, and update the moving face `qf` in
place to the new corners. -/
def extrudeStepFn (sinf cosf : ℚ → ℚ) (distance : ℚ) (count : Nat)
    (sx sy sz rx ry rz : ℚ)
    (original_cent surface_normal inner0 inner1 inner2 inner3 : Point3)
    (is_triangle : Bool)
    (st : List Point3 × List QuadFace × QuadFace) (z : Nat) :
    List Point3 × List QuadFace × QuadFace :=
  let verts := st.1
  let sideQuads := st.2.1
  let qf := st.2.2
  let m : ℚ := ((z : ℚ) + 1) / (count : ℚ)
  let t := Transform.make
  let t := t.rotateX (sinf (rx * m)) (cosf (rx * m))
  let t := t.rotateY (sinf (ry * m)) (cosf (ry * m))
  let t := t.rotateZ (sinf (rz * m)) (cosf (rz * m))
  let new_cent := addPoints3d original_cent
      (mulPoint3d (t.transformPoint surface_normal) (m * distance))
  let t := t.scalePre (linearInterpolate 1 sx m) (linearInterpolate 1 sy m)
      (linearInterpolate 1 sz m)
  let index_before := verts.length
  let verts := verts
      ++ [addPoints3d new_cent (t.transformPoint inner0),
          addPoints3d new_cent (t.transformPoint inner1),
          addPoints3d new_cent (t.transformPoint inner2)]
      ++ (if is_triangle then []
          else [addPoints3d new_cent (t.transformPoint inner3)])
  let sideQuads := sideQuads
      ++ [newQuadFace qf.i1 (index_before + 1) index_before (some qf.i0),
          newQuadFace qf.i2 (index_before + 2) (index_before + 1) (some qf.i1)]
      ++ (if is_triangle then
            [newQuadFace qf.i0 index_before (index_before + 2) (some qf.i2)]
          else
            [newQuadFace (qf.i3.getD 0) (index_before + 3) (index_before + 2)
               (some qf.i2),
             newQuadFace qf.i0 index_before (index_before + 3)
               (some (qf.i3.getD 0))])
  let qf := { qf with
              i0 := index_before
              i1 := index_before + 1
              i2 := index_before + 2
              i3 := if is_triangle then qf.i3 else some (index_before + 3) }
  (verts, sideQuads, qf)

/-- The per-selected-face body of `extrude`: read the face and its
cached metadata (reading `null` metadata would throw in JS; the claims
supply valid metadata), compute the surface normal and inner corner
offsets, run the `count` steps, then store the final face back at
`face_index` with the pushed side faces appended. -/
def extrudeFace (sinf cosf sqrtf : ℚ → ℚ) (ex : Extruder)
    (st : List Point3 × List QuadFace) (face_index : Nat) :
    List Point3 × List QuadFace :=
  let vertices := st.1
  let quads := st.2
  let qf := quads.getD face_index qfzero
  let original_cent := qf.centroid.getD pzero
  let surface_normal := unitVector3d sqrtf
      (addPoints3d (qf.normal1.getD pzero) (qf.normal2.getD pzero))
  let is_triangle := qf.isTriangle
  let inner0 := subPoints3d (vertices.getD qf.i0 pzero) original_cent
  let inner1 := subPoints3d (vertices.getD qf.i1 pzero) original_cent
  let inner2 := subPoints3d (vertices.getD qf.i2 pzero) original_cent
  let inner3 := if is_triangle then pzero
    else subPoints3d (vertices.getD (qf.i3.getD 0) pzero) original_cent
  let res := (List.range ex.count_).foldl
      (extrudeStepFn sinf cosf ex.distance_ ex.count_
        ex.scale.x ex.scale.y ex.scale.z ex.rotate.x ex.rotate.y ex.rotate.z
        original_cent surface_normal inner0 inner1 inner2 inner3 is_triangle)
      (vertices, [], qf)
  (res.1, (quads.set face_index res.2.2) ++ res.2.1)

/-- `Extruder.prototype.extrude` from pre3d_path_utils.js: extrude each
selected face through `count_` steps, then rebuild all metadata. -/
def Extruder.extrude (sinf cosf sqrtf : ℚ → ℚ) (ex : Extruder)
    (shape : Shape) : Shape :=
  let faces := selectedFaces ex shape
  let res := faces.foldl (extrudeFace sinf cosf sqrtf ex)
      (shape.vertices, shape.quads)
  rebuildMeta { vertices := res.1, quads := res.2 }

end ShapeUtils

namespace PathUtils

/-- `makeCircle` from pre3d_path_utils.js: a circle approximation out
of two cubic splines, `kKappa = 0.66666666666`. -/
def makeCircle : Path :=
  let kKappa : ℚ := 66666666666 / 100000000000
  { points :=
      [⟨0, kKappa, 0⟩, ⟨1, kKappa, 0⟩, ⟨1, 0, 0⟩,
       ⟨1, -kKappa, 0⟩, ⟨0, -kKappa, 0⟩, ⟨0, 0, 0⟩]
    curves := [⟨2, 0, some 1⟩, ⟨5, 3, some 4⟩]
    starting_point := none }

end PathUtils

/-- The point a cubic Bézier curve passes through at parameter `u`:
the curve the canvas `bezierCurveTo` primitive draws from the current
point `p0` through control points `c0`, `c1` to end point `ep`
(`Renderer.prototype.drawPath` hands each cubic `Curve` to that
primitive). -/
def cubicBezier (p0 c0 c1 ep : Point3) (u : ℚ) : Point3 :=
  { x := (1-u)^3 * p0.x + 3*(1-u)^2*u * c0.x + 3*(1-u)*u^2 * c1.x + u^3 * ep.x
    y := (1-u)^3 * p0.y + 3*(1-u)^2*u * c0.y + 3*(1-u)*u^2 * c1.y + u^3 * ep.y
    z := (1-u)^3 * p0.z + 3*(1-u)^2*u * c0.z + 3*(1-u)*u^2 * c1.z + u^3 * ep.z }

/-- Default curve for out-of-range curve-list reads. -/
def czero : Curve := ⟨0, 0, none⟩

/-- Where the trace of `drawPath` starts: the origin when
`starting_point` is `null`, otherwise the indexed point (in path
space; `drawPath` then transforms and projects). -/
def pathStartPoint (path : Path) : Point3 :=
  match path.starting_point with
  | none => ⟨0, 0, 0⟩
  | some i => path.points.getD i pzero

/-- Where the trace of curve `k` of a path begins, per `drawPath`:
curve 0 starts at the path start point, curve `k+1` where curve `k`
ended (its `ep` point). -/
def traceCurveStart (path : Path) : Nat → Point3
  | 0 => pathStartPoint path
  | k + 1 => path.points.getD (path.curves.getD k czero).ep pzero

/-- `TextureInfo` from index.js (uv coordinates; the `image` member is
an opaque DOM handle outside the model). -/
structure TextureInfo where
  u0 : Option ℚ
  v0 : Option ℚ
  u1 : Option ℚ
  v1 : Option ℚ
  u2 : Option ℚ
  v2 : Option ℚ
  u3 : Option ℚ
  v3 : Option ℚ
deriving DecidableEq, Repr

/-- `RGBA` from index.js. -/
structure RGBA where
  r : ℚ
  g : ℚ
  b : ℚ
  a : ℚ
deriving DecidableEq, Repr

/-- `Camera` from index.js: a transform and a focal length (initially
the identity and `1`). -/
structure Camera where
  transform : Transform
  focal_length : ℚ
deriving DecidableEq, Repr

/-- `new Camera()`. -/
def newCamera : Camera := ⟨Transform.make, 1⟩

/-- A 2d point `{x:, y:}` as produced by projection. -/
structure Point2 where
  x : ℚ
  y : ℚ
deriving DecidableEq, Repr

/-- The `world_qf` built by `bufferShape`: the source reuses the
`QuadFace` shape, storing transformed points in the index slots and the
transformed centroid/normals in the metadata slots. -/
structure WorldQuad where
  p0 : Point3
  p1 : Point3
  p2 : Point3
  p3 : Option Point3
  centroid : Point3
  normal1 : Point3
  normal2 : Point3
deriving DecidableEq, Repr

/-- One record pushed onto `buffered_quads_` by `bufferShape`. -/
structure BufferedQuad where
  qf : WorldQuad
  intensity : ℚ
  draw_overdraw : Bool
  texture : Option TextureInfo
  fill_rgba : Option RGBA
  stroke_rgba : Option RGBA
  normal1_rgba : Option RGBA
  normal2_rgba : Option RGBA
deriving DecidableEq, Repr

/-- The render state of `Renderer` from index.js (the canvas element
and 2d context are external; `width_`/`height_` are the canvas
dimensions captured at construction). -/
structure Renderer where
  perform_z_sorting : Bool
  draw_overdraw : Bool
  draw_backfaces : Bool
  texture : Option TextureInfo
  fill_rgba : Option RGBA
  stroke_rgba : Option RGBA
  normal1_rgba : Option RGBA
  normal2_rgba : Option RGBA
  camera : Camera
  transform : Transform
  transform_stack_ : List Transform
  quad_callback : Option (QuadFace → Nat → Shape → Bool)
  width_ : ℚ
  height_ : ℚ
  scale_ : ℚ
  xoff_ : ℚ
  buffered_quads_ : List BufferedQuad

/-- `new Renderer(canvas)` for a canvas of the given width and height:
`scale_ = height_ / 2`, `xoff_ = width_ / 2`, identity camera and
object transforms, and the documented flag/colour defaults. -/
def newRenderer (width height : ℚ) : Renderer :=
  { perform_z_sorting := true
    draw_overdraw := true
    draw_backfaces := false
    texture := none
    fill_rgba := some ⟨1, 0, 0, 1⟩
    stroke_rgba := none
    normal1_rgba := none
    normal2_rgba := none
    camera := newCamera
    transform := Transform.make
    transform_stack_ := []
    quad_callback := none
    width_ := width
    height_ := height
    scale_ := height / 2
    xoff_ := width / 2
    buffered_quads_ := [] }

namespace Renderer

/-- `Renderer.prototype.pushTransform`: push a duplicate of the current
transform. -/
def pushTransform (r : Renderer) : Renderer :=
  { r with transform_stack_ := r.transform_stack_ ++ [r.transform.dup] }

/-- `Renderer.prototype.popTransform`: pop the last pushed transform
into `transform`.  On an empty stack the source leaves `undefined`
there (per its own comment); that unreachable-under-the-claims case
keeps the current transform here. -/
def popTransform (r : Renderer) : Renderer :=
  { r with
    transform := (r.transform_stack_.getLast?).getD r.transform
    transform_stack_ := r.transform_stack_.dropLast }

/-- `Renderer.prototype.projectPointToCanvas`: pinhole projection,
`v = focal_length / -p.z`, x mapped with `+scale_` and offset
`xoff_`, y flipped with `-scale_` and offset `scale_`. -/
def projectPointToCanvas (r : Renderer) (p : Point3) : Point2 :=
  let v := r.camera.focal_length / (-p.z)
  { x := p.x * v * r.scale_ + r.xoff_
    y := p.y * v * (-r.scale_) + r.scale_ }

end Renderer

/-- `g_z_axis_vector` from index.js. -/
def g_z_axis_vector : Point3 := ⟨0, 0, 1⟩

/-- The body of the `bufferShape` loop for face `qf` at index `j`:
run the optional quad callback, cull faces with transformed centroid
`z >= -1`, transform the normals by the adjoint-transpose `tn`
(normalising the first through `sqrtf`, the `Math.sqrt` parameter),
backface-cull unless `draw_backfaces`, and otherwise build the
buffered record.  Reading `null` cached metadata would throw in JS;
that case yields `none` here and is excluded by the claims'
valid-metadata hypothesis. -/
def bufferFace (sqrtf : ℚ → ℚ) (r : Renderer) (t tn : AffineMatrix)
    (world_vertices : List Point3) (shape : Shape) (j : Nat)
    (qf : QuadFace) : Option BufferedQuad :=
  if (match r.quad_callback with
      | some cb => cb qf j shape
      | none => false) then
    none
  else
    match qf.centroid, qf.normal1, qf.normal2 with
    | some cent, some nor1, some nor2 =>
        let centroid := transformPoint t cent
        if centroid.z ≥ -1 then none
        else
          let n1 := unitVector3d sqrtf (transformPoint tn nor1)
          let n2 := transformPoint tn nor2
          if ¬(r.draw_backfaces = true)
              ∧ dotProduct3d centroid n1 > 0
              ∧ dotProduct3d centroid n2 > 0 then none
          else
            let intensity0 := dotProduct3d g_z_axis_vector n1
            let intensity := if intensity0 < 0 then 0 else intensity0
            let world_qf : WorldQuad :=
              { p0 := world_vertices.getD qf.i0 pzero
                p1 := world_vertices.getD qf.i1 pzero
                p2 := world_vertices.getD qf.i2 pzero
                p3 := match qf.i3 with
                      | none => none
                      | some k3 => some (world_vertices.getD k3 pzero)
                centroid := centroid
                normal1 := n1
                normal2 := n2 }
            some { qf := world_qf
                   intensity := intensity
                   draw_overdraw := r.draw_overdraw
                   texture := r.texture
                   fill_rgba := r.fill_rgba
                   stroke_rgba := r.stroke_rgba
                   normal1_rgba := r.normal1_rgba
                   normal2_rgba := r.normal2_rgba }
    | _, _, _ => none

/-- The records `Renderer.prototype.bufferShape` pushes onto
`buffered_quads_` for one shape: vertex transform
`t = camera.transform.m * transform.m`, normal transform
`tn = transAdjoint(t)`, all vertices pre-transformed, then the per-face
loop. -/
def bufferShapeList (sqrtf : ℚ → ℚ) (r : Renderer) (shape : Shape) :
    List BufferedQuad :=
  let t := multiplyAffine r.camera.transform.m r.transform.m
  let tn := transAdjoint t
  let world_vertices := transformPoints t shape.vertices
  shape.quads.enum.filterMap
    (fun p => bufferFace sqrtf r t tn world_vertices shape p.1 p.2)

/-- `Renderer.prototype.bufferShape`: append the shape's buffered
records to `buffered_quads_`. -/
def Renderer.bufferShape (sqrtf : ℚ → ℚ) (r : Renderer) (shape : Shape) :
    Renderer :=
  { r with buffered_quads_ := r.buffered_quads_ ++ bufferShapeList sqrtf r shape }

/-! ## Claim-support definitions -/

/-- All vertex indices of a face are in bounds for a vertex list of
length `n`. -/
def faceInBounds (n : Nat) (qf : QuadFace) : Prop :=
  qf.i0 < n ∧ qf.i1 < n ∧ qf.i2 < n
    ∧ (match qf.i3 with
       | some k => k < n
       | none => True)

/-- The vertex-index tuple of a face (used to compare face lists while
ignoring the cached metadata `rebuildMeta` refreshes). -/
def faceIndices (qf : QuadFace) : Nat × Nat × Nat × Option Nat :=
  (qf.i0, qf.i1, qf.i2, qf.i3)

/-- The twelve edge midpoints of the cube `makeCube 1` (one per
geometric edge: the coordinate along the edge averaged to 0, the two
others at ±1). -/
def cubeEdgeMidpoints : List Point3 :=
  [⟨0, 1, 1⟩, ⟨0, 1, -1⟩, ⟨0, -1, 1⟩, ⟨0, -1, -1⟩,
   ⟨1, 0, 1⟩, ⟨1, 0, -1⟩, ⟨-1, 0, 1⟩, ⟨-1, 0, -1⟩,
   ⟨1, 1, 0⟩, ⟨1, -1, 0⟩, ⟨-1, 1, 0⟩, ⟨-1, -1, 0⟩]

/-- The six face centroids of the cube `makeCube 1`. -/
def cubeFaceCentroids : List Point3 :=
  [⟨1, 0, 0⟩, ⟨-1, 0, 0⟩, ⟨0, 1, 0⟩, ⟨0, -1, 0⟩, ⟨0, 0, 1⟩, ⟨0, 0, -1⟩]

/-- The in-place operations `Transform` exposes, as invoked between a
`pushTransform` and a `popTransform`. -/
inductive TransformOp where
  | rotX (s c : ℚ)
  | rotXPre (s c : ℚ)
  | rotY (s c : ℚ)
  | rotYPre (s c : ℚ)
  | rotZ (s c : ℚ)
  | rotZPre (s c : ℚ)
  | trans (dx dy dz : ℚ)
  | transPre (dx dy dz : ℚ)
  | scal (sx sy sz : ℚ)
  | scalPre (sx sy sz : ℚ)
  | reset
  | mult (other : Transform)

/-- Apply one in-place `Transform` operation. -/
def applyTransformOp (t : Transform) : TransformOp → Transform
  | .rotX s c => t.rotateX s c
  | .rotXPre s c => t.rotateXPre s c
  | .rotY s c => t.rotateY s c
  | .rotYPre s c => t.rotateYPre s c
  | .rotZ s c => t.rotateZ s c
  | .rotZPre s c => t.rotateZPre s c
  | .trans dx dy dz => t.translate dx dy dz
  | .transPre dx dy dz => t.translatePre dx dy dz
  | .scal sx sy sz => t.scale sx sy sz
  | .scalPre sx sy sz => t.scalePre sx sy sz
  | .reset => t.reset
  | .mult other => t.multTransform other

/-- Run a sequence of in-place operations on the renderer's current
transform (the stack is untouched: the operations go through
`r.transform` only). -/
def applyOpsToCurrent (r : Renderer) (ops : List TransformOp) : Renderer :=
  { r with transform := ops.foldl applyTransformOp r.transform }

/-- The claim's per-face buffering condition for `bufferShape`: the
centroid transformed by (camera-transform ∘ object-transform) has
`z < -1`, and, unless `draw_backfaces` is set, it is not the case that
the dot products of the transformed centroid with each of the two
adjoint-transpose-transformed cached normals are both positive. -/
def specFaceKept (r : Renderer) (qf : QuadFace) : Prop :=
  (transformPoint (multiplyAffine r.camera.transform.m r.transform.m)
      (qf.centroid.getD pzero)).z < -1
  ∧ (r.draw_backfaces = true
     ∨ ¬(0 < dotProduct3d
            (transformPoint (multiplyAffine r.camera.transform.m r.transform.m)
              (qf.centroid.getD pzero))
            (transformPoint
              (transAdjoint (multiplyAffine r.camera.transform.m r.transform.m))
              (qf.normal1.getD pzero))
          ∧ 0 < dotProduct3d
            (transformPoint (multiplyAffine r.camera.transform.m r.transform.m)
              (qf.centroid.getD pzero))
            (transformPoint
              (transAdjoint (multiplyAffine r.camera.transform.m r.transform.m))
              (qf.normal2.getD pzero))))

instance specFaceKeptDecidable (r : Renderer) (qf : QuadFace) :
    Decidable (specFaceKept r qf) := by
  unfold specFaceKept
  infer_instance

/-! ## Helper lemmas -/

/-- Applying a product matrix is composition of applications
(the algebraic fact behind the pre/post composition claims). -/
theorem transformPoint_multiplyAffine (a b : AffineMatrix) (p : Point3) :
    transformPoint (multiplyAffine a b) p
      = transformPoint a (transformPoint b p) := by
  simp only [transformPoint, multiplyAffine, Point3.mk.injEq]
  refine ⟨by ring, by ring, by ring⟩

/-- `averagePoints` of three points, written out. -/
theorem averagePoints_three (a b c : Point3) :
    averagePoints [a, b, c]
      = ⟨(a.x + b.x + c.x) / 3, (a.y + b.y + c.y) / 3, (a.z + b.z + c.z) / 3⟩ := by
  simp only [averagePoints, List.foldl, addPoints3d, mulPoint3d, pzero,
    List.length_cons, List.length_nil, Point3.mk.injEq]
  refine ⟨?_, ?_, ?_⟩ <;> push_cast <;> ring

/-- `averagePoints` of four points, written out. -/
theorem averagePoints_four (a b c d : Point3) :
    averagePoints [a, b, c, d]
      = ⟨(a.x + b.x + c.x + d.x) / 4, (a.y + b.y + c.y + d.y) / 4,
         (a.z + b.z + c.z + d.z) / 4⟩ := by
  simp only [averagePoints, List.foldl, addPoints3d, mulPoint3d, pzero,
    List.length_cons, List.length_nil, Point3.mk.injEq]
  refine ⟨?_, ?_, ?_⟩ <;> push_cast <;> ring

/-- `getD` through a `map`, at an in-range index. -/
theorem getD_map_of_lt {α β : Type} (l : List α) (f : α → β) (j : Nat)
    (h : j < l.length) (d : β) (d' : α) :
    (l.map f).getD j d = f (l.getD j d') := by
  rw [List.getD_eq_getElem?_getD, List.getElem?_map,
    List.getElem?_eq_getElem h, List.getD_eq_getElem?_getD,
    List.getElem?_eq_getElem h]
  rfl

/-- `rebuildMetaFace` leaves the vertex indices untouched. -/
theorem rebuildMetaFace_indices (v : List Point3) (qf : QuadFace) :
    (ShapeUtils.rebuildMetaFace v qf).i0 = qf.i0
    ∧ (ShapeUtils.rebuildMetaFace v qf).i1 = qf.i1
    ∧ (ShapeUtils.rebuildMetaFace v qf).i2 = qf.i2
    ∧ (ShapeUtils.rebuildMetaFace v qf).i3 = qf.i3 := by
  cases h : qf.i3 <;> simp [ShapeUtils.rebuildMetaFace, h]

/-- `rebuildMeta` leaves the vertex list untouched. -/
theorem rebuildMeta_vertices (s : Shape) :
    (ShapeUtils.rebuildMeta s).vertices = s.vertices := rfl

/-- `rebuildMetaFace` leaves `i3` untouched. -/
theorem rebuildMetaFace_i3 (v : List Point3) (qf : QuadFace) :
    (ShapeUtils.rebuildMetaFace v qf).i3 = qf.i3 :=
  (rebuildMetaFace_indices v qf).2.2.2

/-! ## Claim C1 -/

/-- **C1** (counterexample).  The claim asserts that after a "post"
operation (here `translate`, one of the operations the claim names)
on a transform with current matrix `M`, `transformPoint` equals `M`
applied to the result of the new operation applied to `p`.  With
`M = makeScaleAffine 2 2 2`, a post-`translate(1,0,0)` and `p` the
origin, the code yields `(1,0,0)` while the claimed order yields
`(2,0,0)`. -/
theorem transform_post_translate_cex :
    ((Transform.mk (makeScaleAffine 2 2 2)).translate 1 0 0).transformPoint
        pzero
      ≠ transformPoint (makeScaleAffine 2 2 2)
          (transformPoint (makeTranslateAffine 1 0 0) pzero) := by
  norm_num [Transform.translate, Transform.transformPoint, transformPoint,
    multiplyAffine, makeScaleAffine, makeTranslateAffine, pzero,
    Point3.mk.injEq]

/-- **C1** (amended).  The "post" operations (`rotateX`, `rotateY`,
`rotateZ`, `translate`, `scale`) compose the new matrix on the left,
so the new operation applies *after* the existing transform `M`
(in the already-transformed space):
`T.transformPoint p = newOp (M p)`.  The "pre" variants compose on the
right, so the new operation applies *first*, in object-local space:
`T.transformPoint p = M (newOp p)`.  The rotation constructors receive
the sine `s` and cosine `c` of the angle, as computed for the JS code
by `Math.sin`/`Math.cos`. -/
theorem transform_post_pre_composition
    (t : Transform) (p : Point3) (s c dx dy dz sx sy sz : ℚ) :
    ((t.rotateX s c).transformPoint p
        = transformPoint (makeRotateAffineX s c) (t.transformPoint p))
    ∧ ((t.rotateY s c).transformPoint p
        = transformPoint (makeRotateAffineY s c) (t.transformPoint p))
    ∧ ((t.rotateZ s c).transformPoint p
        = transformPoint (makeRotateAffineZ s c) (t.transformPoint p))
    ∧ ((t.translate dx dy dz).transformPoint p
        = transformPoint (makeTranslateAffine dx dy dz) (t.transformPoint p))
    ∧ ((t.scale sx sy sz).transformPoint p
        = transformPoint (makeScaleAffine sx sy sz) (t.transformPoint p))
    ∧ ((t.rotateXPre s c).transformPoint p
        = t.transformPoint (transformPoint (makeRotateAffineX s c) p))
    ∧ ((t.rotateYPre s c).transformPoint p
        = t.transformPoint (transformPoint (makeRotateAffineY s c) p))
    ∧ ((t.rotateZPre s c).transformPoint p
        = t.transformPoint (transformPoint (makeRotateAffineZ s c) p))
    ∧ ((t.translatePre dx dy dz).transformPoint p
        = t.transformPoint (transformPoint (makeTranslateAffine dx dy dz) p))
    ∧ ((t.scalePre sx sy sz).transformPoint p
        = t.transformPoint (transformPoint (makeScaleAffine sx sy sz) p)) := by
  refine ⟨?_, ?_, ?_, ?_, ?_, ?_, ?_, ?_, ?_, ?_⟩ <;>
    simp only [Transform.rotateX, Transform.rotateY, Transform.rotateZ,
      Transform.translate, Transform.scale, Transform.rotateXPre,
      Transform.rotateYPre, Transform.rotateZPre, Transform.translatePre,
      Transform.scalePre, Transform.transformPoint,
      transformPoint_multiplyAffine]

/-! ## Claim C4 -/

/-- **C4**.  With identity camera and object transforms (as set up by
the `Renderer` constructor) and focal length `f > 0`, the camera-space
point `(0, 0, -d)` with `d > 0` projects to the exact surface centre
`(width/2, height/2)`, independently of `f` and `d`. -/
theorem projectPointToCanvas_center (w h f d : ℚ) (hf : 0 < f) (hd : 0 < d) :
    Renderer.projectPointToCanvas
        { newRenderer w h with camera := { newCamera with focal_length := f } }
        ⟨0, 0, -d⟩
      = ⟨w / 2, h / 2⟩ := by
  simp [Renderer.projectPointToCanvas, newRenderer, newCamera]

/-- **C4** (witness): the projection theorem instantiated at
`w = 640`, `h = 480`, `f = 2`, `d = 5`. -/
theorem projectPointToCanvas_center_witness :
    Renderer.projectPointToCanvas
        { newRenderer 640 480 with
          camera := { newCamera with focal_length := 2 } }
        ⟨0, 0, -5⟩
      = ⟨320, 240⟩ := by
  have h := projectPointToCanvas_center 640 480 2 5 (by norm_num) (by norm_num)
  norm_num at h
  exact h

/-! ## Claim C9 -/

/-- **C9**.  `makeCircle()` yields a path of exactly two cubic curves
with no explicit starting point, so its trace starts at the implicit
origin; each curve evaluated at parameter 0 is exactly the point where
its trace begins (curve 0 at the path start, curve 1 at curve 0's end
point), and the end point of the last curve returns to the trace's
starting point, closing the loop. -/
theorem makeCircle_closed_loop :
    PathUtils.makeCircle.curves.length = 2
    ∧ (PathUtils.makeCircle.curves.getD 0 czero).c1.isSome = true
    ∧ (PathUtils.makeCircle.curves.getD 1 czero).c1.isSome = true
    ∧ PathUtils.makeCircle.starting_point = none
    ∧ pathStartPoint PathUtils.makeCircle = ⟨0, 0, 0⟩
    ∧ (cubicBezier (traceCurveStart PathUtils.makeCircle 0)
        (PathUtils.makeCircle.points.getD
          (PathUtils.makeCircle.curves.getD 0 czero).c0 pzero)
        (PathUtils.makeCircle.points.getD
          ((PathUtils.makeCircle.curves.getD 0 czero).c1.getD 0) pzero)
        (PathUtils.makeCircle.points.getD
          (PathUtils.makeCircle.curves.getD 0 czero).ep pzero) 0
        = traceCurveStart PathUtils.makeCircle 0)
    ∧ (cubicBezier (traceCurveStart PathUtils.makeCircle 1)
        (PathUtils.makeCircle.points.getD
          (PathUtils.makeCircle.curves.getD 1 czero).c0 pzero)
        (PathUtils.makeCircle.points.getD
          ((PathUtils.makeCircle.curves.getD 1 czero).c1.getD 0) pzero)
        (PathUtils.makeCircle.points.getD
          (PathUtils.makeCircle.curves.getD 1 czero).ep pzero) 0
        = traceCurveStart PathUtils.makeCircle 1)
    ∧ (traceCurveStart PathUtils.makeCircle 1
        = PathUtils.makeCircle.points.getD
            (PathUtils.makeCircle.curves.getD 0 czero).ep pzero)
    ∧ (PathUtils.makeCircle.points.getD
          (PathUtils.makeCircle.curves.getD 1 czero).ep pzero
        = pathStartPoint PathUtils.makeCircle) := by
  norm_num [PathUtils.makeCircle, cubicBezier, traceCurveStart,
    pathStartPoint, czero, pzero, List.getD, Point3.mk.injEq]

/-! ## Claim C10 -/

/-- **C10**.  `pushTransform()` saves a deep duplicate of the current
transform (`dup` copies all 12 coefficients, so the saved matrix equals
the current one coefficient-by-coefficient), and after any sequence of
in-place operations on the current transform, `popTransform()` restores
a transform whose matrix equals the one held immediately before the
push. -/
theorem pushPopTransform_restores (r : Renderer) (ops : List TransformOp) :
    ((applyOpsToCurrent (r.pushTransform) ops).popTransform).transform.m
        = r.transform.m
    ∧ (r.transform.dup).m = r.transform.m := by
  constructor
  · simp [Renderer.popTransform, applyOpsToCurrent, Renderer.pushTransform,
      Transform.dup, dupAffine]
  · rfl

/-! ## Claim C7 -/

/-- **C7**.  After `rebuildMeta`, every triangle face has
`normal1 = normal2` and centroid the unweighted average of its three
vertices, and every quad face has centroid the unweighted average of
its four vertices, `normal1` the cross product built from vertices
0, 1, 2 and `normal2` the one built from vertices 0, 2, 3. -/
theorem rebuildMeta_centroids_normals (shape : Shape) (j : Nat)
    (hj : j < shape.quads.length)
    (hb : ∀ qf ∈ shape.quads, faceInBounds shape.vertices.length qf) :
    let q := shape.quads.getD j qfzero
    let q' := (ShapeUtils.rebuildMeta shape).quads.getD j qfzero
    let v0 := shape.vertices.getD q.i0 pzero
    let v1 := shape.vertices.getD q.i1 pzero
    let v2 := shape.vertices.getD q.i2 pzero
    (q.i3 = none →
      q'.normal1 = q'.normal2
      ∧ q'.centroid = some ⟨(v0.x + v1.x + v2.x) / 3,
          (v0.y + v1.y + v2.y) / 3, (v0.z + v1.z + v2.z) / 3⟩)
    ∧ (∀ k3, q.i3 = some k3 →
        (let v3 := shape.vertices.getD k3 pzero
         q'.centroid = some ⟨(v0.x + v1.x + v2.x + v3.x) / 4,
            (v0.y + v1.y + v2.y + v3.y) / 4, (v0.z + v1.z + v2.z + v3.z) / 4⟩
         ∧ q'.normal1
            = some (crossProduct (subPoints3d v1 v0) (subPoints3d v2 v0))
         ∧ q'.normal2
            = some (crossProduct (subPoints3d v2 v0) (subPoints3d v3 v0)))) := by
  intro q q' v0 v1 v2
  have hq' : q' = ShapeUtils.rebuildMetaFace shape.vertices q := by
    show (ShapeUtils.rebuildMeta shape).quads.getD j qfzero
        = ShapeUtils.rebuildMetaFace shape.vertices (shape.quads.getD j qfzero)
    unfold ShapeUtils.rebuildMeta
    exact getD_map_of_lt shape.quads _ j hj qfzero qfzero
  constructor
  · intro h3
    rw [hq']
    unfold ShapeUtils.rebuildMetaFace
    rw [h3]
    simp only [averagePoints_three]
    refine ⟨?_, ?_⟩ <;> trivial
  · intro k3 h3
    intro v3
    rw [hq']
    unfold ShapeUtils.rebuildMetaFace
    rw [h3]
    simp only [averagePoints_four]
    refine ⟨?_, ?_, ?_⟩ <;> trivial

/-- **C7** (witness): the metadata theorem applied to the quad face of
`makePlane` on four concrete points. -/
theorem rebuildMeta_centroids_normals_witness :
    (((ShapeUtils.makePlane ⟨0,0,0⟩ ⟨2,0,0⟩ ⟨2,2,0⟩ ⟨0,2,0⟩).quads.getD 0
        qfzero).centroid = some ⟨1, 1, 0⟩) := by
  have h := rebuildMeta_centroids_normals
      { vertices := [⟨0,0,0⟩, ⟨2,0,0⟩, ⟨2,2,0⟩, ⟨0,2,0⟩]
        quads := [newQuadFace 0 1 2 (some 3)] }
      0 (by decide)
      (by
        intro qf hqf
        simp only [List.mem_singleton] at hqf
        subst hqf
        exact ⟨by show (0:Nat) < 4; omega, by show (1:Nat) < 4; omega,
          by show (2:Nat) < 4; omega, by show (3:Nat) < 4; omega⟩)
  have h2 := h.2 3 rfl
  have hc := h2.1
  rw [show ShapeUtils.makePlane ⟨0,0,0⟩ ⟨2,0,0⟩ ⟨2,2,0⟩ ⟨0,2,0⟩
      = ShapeUtils.rebuildMeta
          { vertices := [⟨0,0,0⟩, ⟨2,0,0⟩, ⟨2,2,0⟩, ⟨0,2,0⟩]
            quads := [newQuadFace 0 1 2 (some 3)] } from rfl]
  rw [hc]
  norm_num [List.getD_cons_zero, List.getD_cons_succ, newQuadFace, pzero,
    Point3.mk.injEq]

/-! ## Claim C8 -/

/-- **C8**.  `triangulate` keeps the vertex positions, converts each
quad `(i0,i1,i2,i3)` in place into the triangle `(i0,i1,i2)` (every
face at an original position ends up with `i3 = null` and unchanged
`i0,i1,i2`), and appends, in face order, exactly the triangle
`(i0,i2,i3)` for each original quad.  Running `triangulate` twice
yields the same face count and the same vertex positions as running it
once. -/
theorem triangulate_split_idempotent (shape : Shape) :
    (ShapeUtils.triangulate shape).vertices = shape.vertices
    ∧ (∀ j, j < shape.quads.length →
        ((ShapeUtils.triangulate shape).quads.getD j qfzero).i0
            = (shape.quads.getD j qfzero).i0
        ∧ ((ShapeUtils.triangulate shape).quads.getD j qfzero).i1
            = (shape.quads.getD j qfzero).i1
        ∧ ((ShapeUtils.triangulate shape).quads.getD j qfzero).i2
            = (shape.quads.getD j qfzero).i2
        ∧ ((ShapeUtils.triangulate shape).quads.getD j qfzero).i3 = none)
    ∧ ((ShapeUtils.triangulate shape).quads.drop shape.quads.length).map
          faceIndices
        = shape.quads.filterMap
            (fun q => q.i3.map (fun k3 => (q.i0, q.i2, k3, (none : Option Nat))))
    ∧ (ShapeUtils.triangulate (ShapeUtils.triangulate shape)).quads.length
        = (ShapeUtils.triangulate shape).quads.length
    ∧ (ShapeUtils.triangulate (ShapeUtils.triangulate shape)).vertices
        = (ShapeUtils.triangulate shape).vertices := by
  have hTF : ∀ qf : QuadFace, (ShapeUtils.triangulateFace qf).i0 = qf.i0
      ∧ (ShapeUtils.triangulateFace qf).i1 = qf.i1
      ∧ (ShapeUtils.triangulateFace qf).i2 = qf.i2
      ∧ (ShapeUtils.triangulateFace qf).i3 = none := by
    intro qf
    unfold ShapeUtils.triangulateFace QuadFace.isTriangle
    cases h : qf.i3 <;> simp [h]
  have htri : ∀ s : Shape, ∀ q ∈ (ShapeUtils.triangulate s).quads, q.i3 = none := by
    intro s q hq
    unfold ShapeUtils.triangulate ShapeUtils.rebuildMeta at hq
    rw [List.mem_map] at hq
    obtain ⟨a, ha, rfl⟩ := hq
    rw [(rebuildMetaFace_indices _ _).2.2.2]
    rw [List.mem_append] at ha
    rcases ha with ha | ha
    · rw [List.mem_map] at ha
      obtain ⟨b, _, rfl⟩ := ha
      exact (hTF b).2.2.2
    · rw [List.mem_filterMap] at ha
      obtain ⟨b, _, hb⟩ := ha
      unfold ShapeUtils.triangulateExtra at hb
      cases h3 : b.i3 with
      | none => rw [h3] at hb; cases hb
      | some k3 => rw [h3] at hb; cases hb; rfl
  refine ⟨rfl, ?_, ?_, ?_, rfl⟩
  · intro j hj
    have hget : (ShapeUtils.triangulate shape).quads.getD j qfzero
        = ShapeUtils.rebuildMetaFace shape.vertices
            (ShapeUtils.triangulateFace (shape.quads.getD j qfzero)) := by
      show ((shape.quads.map ShapeUtils.triangulateFace
              ++ shape.quads.filterMap ShapeUtils.triangulateExtra).map
            (ShapeUtils.rebuildMetaFace shape.vertices)).getD j qfzero = _
      rw [getD_map_of_lt _ _ j
        (by rw [List.length_append, List.length_map]; omega) qfzero qfzero]
      congr 1
      rw [List.getD_eq_getElem?_getD,
        List.getElem?_append_left (by rw [List.length_map]; exact hj),
        List.getElem?_map, List.getElem?_eq_getElem hj,
        List.getD_eq_getElem?_getD, List.getElem?_eq_getElem hj]
      rfl
    rw [hget]
    obtain ⟨m0, m1, m2, m3⟩ := rebuildMetaFace_indices shape.vertices
      (ShapeUtils.triangulateFace (shape.quads.getD j qfzero))
    obtain ⟨t0, t1, t2, t3⟩ := hTF (shape.quads.getD j qfzero)
    exact ⟨m0.trans t0, m1.trans t1, m2.trans t2, m3.trans t3⟩
  · show (((shape.quads.map ShapeUtils.triangulateFace
            ++ shape.quads.filterMap ShapeUtils.triangulateExtra).map
          (ShapeUtils.rebuildMetaFace shape.vertices)).drop
            shape.quads.length).map faceIndices = _
    rw [List.map_append]
    rw [show shape.quads.length
        = ((shape.quads.map ShapeUtils.triangulateFace).map
            (ShapeUtils.rebuildMetaFace shape.vertices)).length by simp]
    rw [List.drop_left, List.map_map, List.map_filterMap]
    apply List.filterMap_congr
    intro q _
    unfold ShapeUtils.triangulateExtra
    cases h3 : q.i3 with
    | none => rfl
    | some k3 =>
        show some (faceIndices (ShapeUtils.rebuildMetaFace shape.vertices
            (newQuadFace q.i0 q.i2 k3 none))) = _
        obtain ⟨m0, m1, m2, m3⟩ := rebuildMetaFace_indices shape.vertices
          (newQuadFace q.i0 q.i2 k3 none)
        unfold faceIndices
        rw [m0, m1, m2, m3]
        rfl
  · have hnil : (ShapeUtils.triangulate shape).quads.filterMap
        ShapeUtils.triangulateExtra = [] := by
      rw [List.filterMap_eq_nil_iff]
      intro q hq
      unfold ShapeUtils.triangulateExtra
      rw [htri shape q hq]
    show ((((ShapeUtils.triangulate shape).quads.map ShapeUtils.triangulateFace
            ++ (ShapeUtils.triangulate shape).quads.filterMap
                ShapeUtils.triangulateExtra).map
          (ShapeUtils.rebuildMetaFace (ShapeUtils.triangulate shape).vertices)).length)
        = (ShapeUtils.triangulate shape).quads.length
    rw [hnil]
    simp

/-! ## Claim C5 -/

/-- **C5**.  One `linearSubdivide` pass over `makeCube 1` (8 vertices,
6 quad faces) yields exactly 24 faces, all of them quads, and exactly
26 vertices: the 8 originals (still the first 8 entries), plus 12 edge
midpoints and 6 face centroids among the 18 new entries; the vertex
list has no duplicates, so each edge shared by two adjacent faces
contributed exactly one midpoint vertex. -/
theorem linearSubdivide_cube_counts :
    (ShapeUtils.linearSubdivide (ShapeUtils.makeCube 1)).quads.length = 24
    ∧ (ShapeUtils.linearSubdivide (ShapeUtils.makeCube 1)).quads.countP
        (fun q => q.i3.isSome) = 24
    ∧ (ShapeUtils.linearSubdivide (ShapeUtils.makeCube 1)).vertices.length = 26
    ∧ (ShapeUtils.linearSubdivide (ShapeUtils.makeCube 1)).vertices.take 8
        = (ShapeUtils.makeCube 1).vertices
    ∧ ((ShapeUtils.linearSubdivide (ShapeUtils.makeCube 1)).vertices.drop 8).countP
        (fun p => decide (p ∈ cubeEdgeMidpoints)) = 12
    ∧ ((ShapeUtils.linearSubdivide (ShapeUtils.makeCube 1)).vertices.drop 8).countP
        (fun p => decide (p ∈ cubeFaceCentroids)) = 6
    ∧ (ShapeUtils.linearSubdivide (ShapeUtils.makeCube 1)).vertices.Nodup := by
  with_unfolding_all decide

/-- **C8** (witness): the triangulation theorem applied to a concrete
shape with one quad face. -/
theorem triangulate_split_idempotent_witness :
    (ShapeUtils.triangulate
        { vertices := [⟨0,0,0⟩, ⟨1,0,0⟩, ⟨1,1,0⟩, ⟨0,1,0⟩]
          quads := [newQuadFace 0 1 2 (some 3)] }).vertices
      = [⟨0,0,0⟩, ⟨1,0,0⟩, ⟨1,1,0⟩, ⟨0,1,0⟩] :=
  (triangulate_split_idempotent
    { vertices := [⟨0,0,0⟩, ⟨1,0,0⟩, ⟨1,1,0⟩, ⟨0,1,0⟩]
      quads := [newQuadFace 0 1 2 (some 3)] }).1

/-! ## Claim C3 -/

/-- Filtering a duplicate-free list for one value yields that value at
most once. -/
theorem filter_beq_of_nodup (l : List Nat) (i : Nat) (h : l.Nodup) :
    l.filter (fun k => k == i) = if i ∈ l then [i] else [] := by
  induction l with
  | nil => simp
  | cons a as ih =>
      rw [List.nodup_cons] at h
      rcases h with ⟨ha, hnd⟩
      by_cases hai : a = i
      · subst hai
        have hnil : as.filter (fun k => k == a) = [] := by
          rw [List.filter_eq_nil_iff]
          intro b hb
          simp only [beq_iff_eq]
          intro hba
          exact ha (hba ▸ hb)
        simp [List.filter_cons, hnil]
      · have hne : ((a == i) = false) := by simp [hai]
        simp only [List.filter_cons, hne, Bool.false_eq_true, if_false,
          ih hnd, List.mem_cons]
        have : (i = a ∨ i ∈ as) ↔ i ∈ as := by
          constructor
          · rintro (rfl | h)
            · exact absurd rfl (Ne.symm hai ∘ Eq.symm)
            · exact h
          · exact Or.inr
        rw [if_congr this rfl rfl]

/-- For faces with pairwise-distinct slots, the connection lists built
by `averageSmooth` are exactly the face indices referencing the
vertex. -/
theorem connectionsAux_eq_facesReferencingAux (quads : List QuadFace)
    (i : Nat) (h : ∀ qf ∈ quads, (ShapeUtils.faceSlots qf).Nodup) :
    ∀ j, ShapeUtils.connectionsAux quads i j
      = ShapeUtils.facesReferencingAux quads i j := by
  induction quads with
  | nil => intro j; rfl
  | cons qf rest ih =>
      intro j
      show ((ShapeUtils.faceSlots qf).filter (fun k => k == i)).map (fun _ => j)
            ++ ShapeUtils.connectionsAux rest i (j + 1)
          = (if i ∈ ShapeUtils.faceSlots qf then [j] else [])
            ++ ShapeUtils.facesReferencingAux rest i (j + 1)
      rw [filter_beq_of_nodup _ i (h qf (List.mem_cons_self _ _)),
        ih (fun q hq => h q (List.mem_cons_of_mem _ hq)) (j + 1)]
      by_cases hm : i ∈ ShapeUtils.faceSlots qf
      · rw [if_pos hm, if_pos hm]
        rfl
      · rw [if_neg hm, if_neg hm]
        rfl

/-- Members of `facesReferencingAux quads i j` are below
`j + quads.length`. -/
theorem facesReferencingAux_mem_lt (quads : List QuadFace) (i : Nat) :
    ∀ j k, k ∈ ShapeUtils.facesReferencingAux quads i j →
      k < j + quads.length := by
  induction quads with
  | nil => intro j k hk; cases hk
  | cons qf rest ih =>
      intro j k hk
      rw [show ShapeUtils.facesReferencingAux (qf :: rest) i j
          = (if i ∈ ShapeUtils.faceSlots qf then [j] else [])
            ++ ShapeUtils.facesReferencingAux rest i (j + 1) from rfl,
        List.mem_append] at hk
      rcases hk with hk | hk
      · have : k = j := by
          by_cases hm : i ∈ ShapeUtils.faceSlots qf
          · rw [if_pos hm] at hk
            exact List.mem_singleton.mp hk
          · rw [if_neg hm] at hk
            cases hk
        subst this
        simp only [List.length_cons]
        omega
      · have := ih (j + 1) k hk
        simp only [List.length_cons]
        omega

/-- The quarter-sum a face contributes in `averageSmooth` is exactly
its 4-point centroid. -/
theorem quarterPoint_eq_quadCentroid (v : List Point3) (qf : QuadFace) :
    ShapeUtils.quarterPoint v qf = ShapeUtils.quadCentroid v qf := by
  unfold ShapeUtils.quarterPoint ShapeUtils.quadCentroid
  rw [averagePoints_four]

/-- `collectSome` succeeds, elementwise, when every element succeeds. -/
theorem collectSome_eq_map {α β : Type} (f : α → Option β) (d : β) :
    ∀ l : List α, (∀ a ∈ l, (f a).isSome = true) →
      ShapeUtils.collectSome f l = some (l.map (fun a => (f a).getD d)) := by
  intro l
  induction l with
  | nil => intro; rfl
  | cons a as ih =>
      intro h
      obtain ⟨b, hb⟩ := Option.isSome_iff_exists.mp (h a (List.mem_cons_self _ _))
      show (match f a, ShapeUtils.collectSome f as with
            | some b, some bs => some (b :: bs)
            | _, _ => none) = _
      rw [hb, ih (fun x hx => h x (List.mem_cons_of_mem _ hx))]
      simp [hb]

/-- `getD` through `map` over `range`, at an in-range index. -/
theorem getD_map_range {β : Type} (n i : Nat) (g : Nat → β) (d : β)
    (h : i < n) :
    ((List.range n).map g).getD i d = g i := by
  rw [getD_map_of_lt _ _ i (by simpa using h) d 0]
  congr 1
  rw [List.getD_eq_getElem?_getD, List.getElem?_range h]
  rfl

/-- Interpolating by 0 returns the first point. -/
theorem linearInterpolatePoints3d_zero (a b : Point3) :
    linearInterpolatePoints3d a b 0 = a := by
  cases a with
  | mk ax ay az =>
      simp only [linearInterpolatePoints3d, Point3.mk.injEq]
      refine ⟨by ring, by ring, by ring⟩

/-- Interpolating by 1 returns the second point. -/
theorem linearInterpolatePoints3d_one (a b : Point3) :
    linearInterpolatePoints3d a b 1 = b := by
  cases b with
  | mk bx by' bz =>
      simp only [linearInterpolatePoints3d, Point3.mk.injEq]
      refine ⟨by ring, by ring, by ring⟩

/-- **C3** (counterexample).  The claim includes shapes with triangle
faces, but `averageSmooth` reads `vertices[quad.i3]` unconditionally;
for a triangle, `i3` is `null` and the read throws a TypeError, so no
vertex is ever set.  On a one-triangle shape with `m = 1` the operation
fails instead of producing the claimed smoothed shape. -/
theorem averageSmooth_triangle_cex :
    ShapeUtils.averageSmooth
        { vertices := [⟨0,0,0⟩, ⟨1,0,0⟩, ⟨0,1,0⟩]
          quads := [newQuadFace 0 1 2 none] } 1 = none := by
  with_unfolding_all decide

/-- **C3** (amended).  For every shape all of whose faces are quads
(with pairwise-distinct vertex slots) and whose every vertex is
referenced by at least one face, `averageSmooth` succeeds and sets each
vertex to the interpolation by `m` between its original position and
the average of the centroids of the faces referencing it, computed
entirely from the pre-smoothing snapshot; `m = 0` leaves each vertex
unchanged and `m = 1` moves it fully to the average. -/
theorem averageSmooth_quad_lerp (shape : Shape) (m : ℚ)
    (hq : ∀ qf ∈ shape.quads, qf.i3.isSome = true)
    (hnd : ∀ qf ∈ shape.quads, (ShapeUtils.faceSlots qf).Nodup)
    (href : ∀ i, i < shape.vertices.length →
        ShapeUtils.facesReferencing shape.quads i ≠ []) :
    ∃ s', ShapeUtils.averageSmooth shape m = some s'
      ∧ s'.vertices.length = shape.vertices.length
      ∧ ∀ i, i < shape.vertices.length →
          (s'.vertices.getD i pzero
              = linearInterpolatePoints3d (shape.vertices.getD i pzero)
                  (ShapeUtils.centroidAverage shape i) m
            ∧ (m = 0 → s'.vertices.getD i pzero
                = shape.vertices.getD i pzero)
            ∧ (m = 1 → s'.vertices.getD i pzero
                = ShapeUtils.centroidAverage shape i)) := by
  have hsm : ∀ i, ShapeUtils.smoothedVertex shape m i
      = some (linearInterpolatePoints3d (shape.vertices.getD i pzero)
          (ShapeUtils.centroidAverage shape i) m) := by
    intro i
    have hcs : ShapeUtils.connectionsFor shape.quads i
        = ShapeUtils.facesReferencing shape.quads i :=
      connectionsAux_eq_facesReferencingAux shape.quads i hnd 0
    have hall : (ShapeUtils.facesReferencing shape.quads i).all
        (fun j => !(shape.quads.getD j qfzero).isTriangle) = true := by
      rw [List.all_eq_true]
      intro j hj
      have hjlt : j < shape.quads.length := by
        have := facesReferencingAux_mem_lt shape.quads i 0 j hj
        omega
      have hmem : shape.quads.getD j qfzero ∈ shape.quads := by
        rw [List.getD_eq_getElem?_getD, List.getElem?_eq_getElem hjlt]
        exact List.getElem_mem hjlt
      have hs := hq _ hmem
      obtain ⟨b, hb⟩ := Option.isSome_iff_exists.mp hs
      simp only [QuadFace.isTriangle]
      rw [hb]
      rfl
    have hsum : mulPoint3d
        ((ShapeUtils.facesReferencing shape.quads i).foldl
          (fun acc j => addPoints3d acc
            (ShapeUtils.quarterPoint shape.vertices
              (shape.quads.getD j qfzero))) pzero)
        (1 / ((ShapeUtils.facesReferencing shape.quads i).length : ℚ))
        = ShapeUtils.centroidAverage shape i := by
      unfold ShapeUtils.centroidAverage averagePoints
      rw [List.length_map, List.foldl_map]
      simp only [quarterPoint_eq_quadCentroid]
    simp only [ShapeUtils.smoothedVertex, hcs]
    rw [if_pos hall, hsum]
  have hsome : ∀ a ∈ List.range shape.vertices.length,
      (ShapeUtils.smoothedVertex shape m a).isSome = true := by
    intro a _
    rw [hsm a]
    rfl
  have hcol := collectSome_eq_map (ShapeUtils.smoothedVertex shape m) pzero
      (List.range shape.vertices.length) hsome
  refine ⟨ShapeUtils.rebuildMeta
      (Shape.mk
        ((List.range shape.vertices.length).map
          (fun a => (ShapeUtils.smoothedVertex shape m a).getD pzero))
        shape.quads),
    ?_, ?_, ?_⟩
  · unfold ShapeUtils.averageSmooth
    rw [hcol]
    rfl
  · rw [rebuildMeta_vertices]
    simp
  · intro i hi
    rw [rebuildMeta_vertices]
    show ((List.range shape.vertices.length).map
        (fun a => (ShapeUtils.smoothedVertex shape m a).getD pzero)).getD i pzero
          = _ ∧ _ ∧ _
    rw [getD_map_range _ _ _ _ hi, hsm i]
    refine ⟨rfl, ?_, ?_⟩
    · intro hm0
      subst hm0
      exact linearInterpolatePoints3d_zero _ _
    · intro hm1
      subst hm1
      exact linearInterpolatePoints3d_one _ _

/-- **C3** (witness): the amended smoothing theorem applied to a
one-quad shape with `m = 1/2`. -/
theorem averageSmooth_quad_lerp_witness :
    ∃ s', ShapeUtils.averageSmooth
        { vertices := [⟨0,0,0⟩, ⟨2,0,0⟩, ⟨2,2,0⟩, ⟨0,2,0⟩]
          quads := [newQuadFace 0 1 2 (some 3)] } (1/2) = some s'
      ∧ s'.vertices.length = 4 := by
  obtain ⟨s', h1, h2, _⟩ := averageSmooth_quad_lerp
      { vertices := [⟨0,0,0⟩, ⟨2,0,0⟩, ⟨2,2,0⟩, ⟨0,2,0⟩]
        quads := [newQuadFace 0 1 2 (some 3)] } (1/2)
      (by decide) (by decide) (by decide)
  exact ⟨s', h1, by rw [h2]; simp⟩

/-! ## Claim C6 -/

/-- `rebuildMetaFace` leaves the whole vertex-index tuple untouched. -/
theorem faceIndices_rebuildMetaFace (v : List Point3) (qf : QuadFace) :
    faceIndices (ShapeUtils.rebuildMetaFace v qf) = faceIndices qf := by
  obtain ⟨m0, m1, m2, m3⟩ := rebuildMetaFace_indices v qf
  unfold faceIndices
  rw [m0, m1, m2, m3]

/-- **C6**.  On a shape with valid cached metadata whose selector
selects exactly the single quad face `k`, `extrude` with `count_ = 3`
appends exactly 12 new faces (4 side quads per step, all quads), leaves
the vertex indices of every unselected original face unchanged, and
afterwards face index `k` holds the outward cap: the four corner
vertices created in the third step, at indices `L+8 .. L+11` of the
final vertex list of length `L+12` (`L` the original vertex count), so
all four indices are in bounds.  The sines, cosines and square roots
the JS code takes from `Math` enter through `sinf`, `cosf`, `sqrtf`;
the structural result does not depend on them. -/
theorem extrude_single_quad_count3
    (sinf cosf sqrtf : ℚ → ℚ) (ex : ShapeUtils.Extruder) (shape : Shape)
    (k k3 : Nat)
    (hsel : ShapeUtils.selectedFaces ex shape = [k])
    (hk3 : (shape.quads.getD k qfzero).i3 = some k3)
    (hcount : ex.count_ = 3)
    (_hmeta : (shape.quads.getD k qfzero).centroid.isSome = true
      ∧ (shape.quads.getD k qfzero).normal1.isSome = true
      ∧ (shape.quads.getD k qfzero).normal2.isSome = true) :
    (ShapeUtils.Extruder.extrude sinf cosf sqrtf ex shape).quads.length
      = shape.quads.length + 12
    ∧ ((ShapeUtils.Extruder.extrude sinf cosf sqrtf ex shape).quads.drop
        shape.quads.length).countP (fun q => q.i3.isSome) = 12
    ∧ (∀ j, j < shape.quads.length → j ≠ k →
        faceIndices
            ((ShapeUtils.Extruder.extrude sinf cosf sqrtf ex shape).quads.getD
              j qfzero)
          = faceIndices (shape.quads.getD j qfzero))
    ∧ ((ShapeUtils.Extruder.extrude sinf cosf sqrtf ex shape).quads.getD k
        qfzero).i0 = shape.vertices.length + 8
    ∧ ((ShapeUtils.Extruder.extrude sinf cosf sqrtf ex shape).quads.getD k
        qfzero).i1 = shape.vertices.length + 9
    ∧ ((ShapeUtils.Extruder.extrude sinf cosf sqrtf ex shape).quads.getD k
        qfzero).i2 = shape.vertices.length + 10
    ∧ ((ShapeUtils.Extruder.extrude sinf cosf sqrtf ex shape).quads.getD k
        qfzero).i3 = some (shape.vertices.length + 11)
    ∧ (ShapeUtils.Extruder.extrude sinf cosf sqrtf ex shape).vertices.length
      = shape.vertices.length + 12 := by
  have hk : k < shape.quads.length := by
    have hm : k ∈ ShapeUtils.selectedFaces ex shape := by
      rw [hsel]
      exact List.mem_singleton_self k
    unfold ShapeUtils.selectedFaces at hm
    exact List.mem_range.mp (List.mem_of_mem_filter hm)
  have hfalse : (shape.quads.getD k qfzero).isTriangle = false := by
    rw [QuadFace.isTriangle, hk3]
    rfl
  have hrange3 : List.range 3 = [0, 1, 2] := by decide
  refine ⟨?_, ?_, ?_, ?_, ?_, ?_, ?_, ?_⟩
  · simp only [ShapeUtils.Extruder.extrude, hsel, hcount, hrange3,
      ShapeUtils.extrudeFace, ShapeUtils.extrudeStepFn, hfalse,
      List.foldl_cons, List.foldl_nil, Bool.false_eq_true, if_false,
      ShapeUtils.rebuildMeta, List.length_map, List.length_append,
      List.length_cons, List.length_nil, List.length_set]
  · simp only [ShapeUtils.Extruder.extrude, hsel, hcount, hrange3,
      ShapeUtils.extrudeFace, ShapeUtils.extrudeStepFn, hfalse,
      List.foldl_cons, List.foldl_nil, Bool.false_eq_true, if_false,
      ShapeUtils.rebuildMeta]
    rw [List.map_append, List.drop_left' (by simp), List.countP_map]
    simp [rebuildMetaFace_i3, newQuadFace]
  · intro j hj hjk
    simp only [ShapeUtils.Extruder.extrude, hsel, hcount, hrange3,
      ShapeUtils.extrudeFace, ShapeUtils.extrudeStepFn, hfalse,
      List.foldl_cons, List.foldl_nil, Bool.false_eq_true, if_false,
      ShapeUtils.rebuildMeta]
    rw [getD_map_of_lt _ _ j (by simp [List.length_set]; omega) qfzero qfzero,
      faceIndices_rebuildMetaFace]
    congr 1
    rw [List.getD_eq_getElem?_getD,
      List.getElem?_append_left (by simpa using hj),
      List.getElem?_set_ne (Ne.symm hjk),
      List.getElem?_eq_getElem hj,
      List.getD_eq_getElem?_getD, List.getElem?_eq_getElem hj]
  · simp only [ShapeUtils.Extruder.extrude, hsel, hcount, hrange3,
      ShapeUtils.extrudeFace, ShapeUtils.extrudeStepFn, hfalse,
      List.foldl_cons, List.foldl_nil, Bool.false_eq_true, if_false,
      ShapeUtils.rebuildMeta]
    rw [getD_map_of_lt _ _ k (by simp [List.length_set]; omega) qfzero qfzero,
      (rebuildMetaFace_indices _ _).1]
    rw [List.getD_eq_getElem?_getD,
      List.getElem?_append_left (by simpa using hk),
      List.getElem?_set_self hk]
    simp only [Option.getD_some, List.length_append, List.length_cons,
      List.length_nil]
  · simp only [ShapeUtils.Extruder.extrude, hsel, hcount, hrange3,
      ShapeUtils.extrudeFace, ShapeUtils.extrudeStepFn, hfalse,
      List.foldl_cons, List.foldl_nil, Bool.false_eq_true, if_false,
      ShapeUtils.rebuildMeta]
    rw [getD_map_of_lt _ _ k (by simp [List.length_set]; omega) qfzero qfzero,
      (rebuildMetaFace_indices _ _).2.1]
    rw [List.getD_eq_getElem?_getD,
      List.getElem?_append_left (by simpa using hk),
      List.getElem?_set_self hk]
    simp only [Option.getD_some, Option.some.injEq, List.length_append,
      List.length_cons, List.length_nil]
  · simp only [ShapeUtils.Extruder.extrude, hsel, hcount, hrange3,
      ShapeUtils.extrudeFace, ShapeUtils.extrudeStepFn, hfalse,
      List.foldl_cons, List.foldl_nil, Bool.false_eq_true, if_false,
      ShapeUtils.rebuildMeta]
    rw [getD_map_of_lt _ _ k (by simp [List.length_set]; omega) qfzero qfzero,
      (rebuildMetaFace_indices _ _).2.2.1]
    rw [List.getD_eq_getElem?_getD,
      List.getElem?_append_left (by simpa using hk),
      List.getElem?_set_self hk]
    simp only [Option.getD_some, Option.some.injEq, List.length_append,
      List.length_cons, List.length_nil]
  · simp only [ShapeUtils.Extruder.extrude, hsel, hcount, hrange3,
      ShapeUtils.extrudeFace, ShapeUtils.extrudeStepFn, hfalse,
      List.foldl_cons, List.foldl_nil, Bool.false_eq_true, if_false,
      ShapeUtils.rebuildMeta]
    rw [getD_map_of_lt _ _ k (by simp [List.length_set]; omega) qfzero qfzero,
      (rebuildMetaFace_indices _ _).2.2.2]
    rw [List.getD_eq_getElem?_getD,
      List.getElem?_append_left (by simpa using hk),
      List.getElem?_set_self hk]
    simp only [Option.getD_some, Option.some.injEq, List.length_append,
      List.length_cons, List.length_nil]
  · simp only [ShapeUtils.Extruder.extrude, hsel, hcount, hrange3,
      ShapeUtils.extrudeFace, ShapeUtils.extrudeStepFn, hfalse,
      List.foldl_cons, List.foldl_nil, Bool.false_eq_true, if_false,
      rebuildMeta_vertices, List.length_append, List.length_cons,
      List.length_nil]

/-! ## Claim C2 -/

/-- The dot product with a vector normalised by `unitVector3d` has the
same sign as with the raw vector, for any square-root function sending
positives to positives (the zero vector yields dot product 0 either
way). -/
theorem dot_unitVector_pos_iff (sqrtf : ℚ → ℚ)
    (hsq : ∀ q : ℚ, 0 < q → 0 < sqrtf q) (c w : Point3) :
    (0 < dotProduct3d c (unitVector3d sqrtf w) ↔ 0 < dotProduct3d c w) := by
  unfold unitVector3d vecMag3d mulPoint3d dotProduct3d
  by_cases hw : w.x = 0 ∧ w.y = 0 ∧ w.z = 0
  · obtain ⟨h1, h2, h3⟩ := hw
    rw [h1, h2, h3]
    norm_num
  · have hS : 0 < w.x * w.x + w.y * w.y + w.z * w.z := by
      by_contra hS0
      push_neg at hS0
      have hx := mul_self_nonneg w.x
      have hy := mul_self_nonneg w.y
      have hz := mul_self_nonneg w.z
      exact hw ⟨mul_self_eq_zero.mp (by linarith),
        mul_self_eq_zero.mp (by linarith), mul_self_eq_zero.mp (by linarith)⟩
    have hk : 0 < 1 / sqrtf (w.x * w.x + w.y * w.y + w.z * w.z) := by
      have := hsq _ hS
      positivity
    have heq : c.x * (w.x * (1 / sqrtf (w.x * w.x + w.y * w.y + w.z * w.z)))
        + c.y * (w.y * (1 / sqrtf (w.x * w.x + w.y * w.y + w.z * w.z)))
        + c.z * (w.z * (1 / sqrtf (w.x * w.x + w.y * w.y + w.z * w.z)))
        = (1 / sqrtf (w.x * w.x + w.y * w.y + w.z * w.z))
            * (c.x * w.x + c.y * w.y + c.z * w.z) := by ring
    rw [heq]
    exact mul_pos_iff_of_pos_left hk

/-- The length of a `filterMap` over an enumerated list counts the
elements on which the (index-insensitive) function succeeds. -/
theorem length_filterMap_enumFrom {α β : Type} (f : Nat → α → Option β)
    (p : α → Bool) (l : List α)
    (h : ∀ j a, a ∈ l → (f j a).isSome = p a) :
    ∀ n, ((List.enumFrom n l).filterMap (fun x => f x.1 x.2)).length
      = l.countP p := by
  induction l with
  | nil => intro n; rfl
  | cons a as ih =>
      intro n
      rw [List.enumFrom_cons, List.filterMap_cons, List.countP_cons]
      have ha := h n a (List.mem_cons_self _ _)
      have ihn := ih (fun j b hb => h j b (List.mem_cons_of_mem _ hb)) (n + 1)
      cases hfa : f n a with
      | none =>
          rw [hfa] at ha
          rw [ihn, ← ha]
          simp
      | some b =>
          rw [hfa] at ha
          simp only [List.length_cons]
          rw [ihn, ← ha]
          simp

/-- **C2**.  With `quad_callback` null and valid cached metadata,
`bufferShape` emits a draw record for a face if and only if the face's
centroid transformed by (camera-transform ∘ object-transform) has
`z` strictly less than −1 and, unless `draw_backfaces` is true, it is
not the case that the dot products of the transformed centroid with
the two adjoint-transpose-transformed normals are both positive
(`specFaceKept`); consequently the number of buffered records is the
number of faces satisfying that condition.  `sqrtf` stands for
`Math.sqrt` and need only send positives to positives — the source
normalises the first transformed normal before the dot-product test,
which cannot change the test's outcome. -/
theorem bufferShape_cull_iff
    (sqrtf : ℚ → ℚ) (r : Renderer) (shape : Shape)
    (hsq : ∀ q : ℚ, 0 < q → 0 < sqrtf q)
    (hcb : r.quad_callback = none)
    (hmeta : ∀ qf ∈ shape.quads, qf.centroid.isSome = true
      ∧ qf.normal1.isSome = true ∧ qf.normal2.isSome = true) :
    (∀ j, ∀ qf ∈ shape.quads,
      ((bufferFace sqrtf r
          (multiplyAffine r.camera.transform.m r.transform.m)
          (transAdjoint (multiplyAffine r.camera.transform.m r.transform.m))
          (transformPoints (multiplyAffine r.camera.transform.m r.transform.m)
            shape.vertices) shape j qf).isSome = true
        ↔ specFaceKept r qf))
    ∧ (bufferShapeList sqrtf r shape).length
        = shape.quads.countP (fun qf => decide (specFaceKept r qf)) := by
  have hface : ∀ j, ∀ qf ∈ shape.quads,
      ((bufferFace sqrtf r
          (multiplyAffine r.camera.transform.m r.transform.m)
          (transAdjoint (multiplyAffine r.camera.transform.m r.transform.m))
          (transformPoints (multiplyAffine r.camera.transform.m r.transform.m)
            shape.vertices) shape j qf).isSome = true
        ↔ specFaceKept r qf) := by
    intro j qf hqf
    obtain ⟨hc, hn1, hn2⟩ := hmeta qf hqf
    obtain ⟨cen, hcen⟩ := Option.isSome_iff_exists.mp hc
    obtain ⟨nor1, hnor1⟩ := Option.isSome_iff_exists.mp hn1
    obtain ⟨nor2, hnor2⟩ := Option.isSome_iff_exists.mp hn2
    simp only [bufferFace, specFaceKept, hcb, hcen, hnor1, hnor2,
      Option.getD_some, Bool.false_eq_true, if_false]
    by_cases hz : (transformPoint (multiplyAffine r.camera.transform.m
        r.transform.m) cen).z ≥ -1
    · rw [if_pos hz]
      simp only [Option.isSome_none, Bool.false_eq_true, false_iff]
      intro hcontra
      exact absurd hcontra.1 (not_lt.mpr hz)
    · rw [if_neg hz]
      have hzlt := lt_of_not_ge hz
      have hiff1 := dot_unitVector_pos_iff sqrtf hsq
        (transformPoint (multiplyAffine r.camera.transform.m r.transform.m) cen)
        (transformPoint
          (transAdjoint (multiplyAffine r.camera.transform.m r.transform.m)) nor1)
      by_cases hcull : ¬(r.draw_backfaces = true)
          ∧ 0 < dotProduct3d
              (transformPoint (multiplyAffine r.camera.transform.m r.transform.m) cen)
              (unitVector3d sqrtf (transformPoint
                (transAdjoint (multiplyAffine r.camera.transform.m r.transform.m)) nor1))
          ∧ 0 < dotProduct3d
              (transformPoint (multiplyAffine r.camera.transform.m r.transform.m) cen)
              (transformPoint
                (transAdjoint (multiplyAffine r.camera.transform.m r.transform.m)) nor2)
      · rw [if_pos hcull]
        simp only [Option.isSome_none, Bool.false_eq_true, false_iff]
        rintro ⟨-, hdb | hnot⟩
        · exact hcull.1 hdb
        · exact hnot ⟨hiff1.mp hcull.2.1, hcull.2.2⟩
      · rw [if_neg hcull]
        simp only [Option.isSome_some, true_iff]
        refine ⟨hzlt, ?_⟩
        by_cases hdb : r.draw_backfaces = true
        · exact Or.inl hdb
        · right
          rintro ⟨h1, h2⟩
          exact hcull ⟨hdb, hiff1.mpr h1, h2⟩
  refine ⟨hface, ?_⟩
  have hbool : ∀ j qf, qf ∈ shape.quads →
      (bufferFace sqrtf r
          (multiplyAffine r.camera.transform.m r.transform.m)
          (transAdjoint (multiplyAffine r.camera.transform.m r.transform.m))
          (transformPoints (multiplyAffine r.camera.transform.m r.transform.m)
            shape.vertices) shape j qf).isSome
        = decide (specFaceKept r qf) := by
    intro j qf hqf
    have hif := hface j qf hqf
    by_cases hP : specFaceKept r qf
    · rw [hif.mpr hP, decide_eq_true hP]
    · rw [decide_eq_false hP, Bool.eq_false_iff]
      intro habs
      exact hP (hif.mp habs)
  show (bufferShapeList sqrtf r shape).length = _
  simp only [bufferShapeList]
  exact length_filterMap_enumFrom _ _ shape.quads
    (fun j a ha => hbool j a ha) 0

/-- **C2** (witness): a single front-facing triangle at depth −2 under
identity camera and object transforms is buffered, so the buffer holds
exactly one record. -/
theorem bufferShape_cull_iff_witness :
    (bufferShapeList (fun q => q) (newRenderer 4 4)
        (ShapeUtils.rebuildMeta
          { vertices := [⟨0,0,-2⟩, ⟨1,0,-2⟩, ⟨0,1,-2⟩]
            quads := [newQuadFace 0 1 2 none] })).length = 1 := by
  have h := (bufferShape_cull_iff (fun q => q) (newRenderer 4 4)
      (ShapeUtils.rebuildMeta
        { vertices := [⟨0,0,-2⟩, ⟨1,0,-2⟩, ⟨0,1,-2⟩]
          quads := [newQuadFace 0 1 2 none] })
      (fun _ hq => hq) rfl (by with_unfolding_all decide)).2
  rw [h]
  with_unfolding_all decide

/-- **C6** (witness): extruding the single quad face of a concrete
plane shape with `count = 3` yields 1 + 12 faces. -/
theorem extrude_single_quad_count3_witness :
    (ShapeUtils.Extruder.extrude (fun _ => 0) (fun _ => 1) (fun q => q)
        { ShapeUtils.newExtruder with count_ := 3 }
        (ShapeUtils.makePlane ⟨0,0,0⟩ ⟨2,0,0⟩ ⟨2,2,0⟩ ⟨0,2,0⟩)).quads.length
      = 13 := by
  have h := extrude_single_quad_count3 (fun _ => 0) (fun _ => 1) (fun q => q)
      { ShapeUtils.newExtruder with count_ := 3 }
      (ShapeUtils.makePlane ⟨0,0,0⟩ ⟨2,0,0⟩ ⟨2,2,0⟩ ⟨0,2,0⟩) 0 3
      (by with_unfolding_all decide)
      (by with_unfolding_all decide)
      rfl
      (by with_unfolding_all decide)
  rw [h.1]
  with_unfolding_all rfl

end Pre3d
